import Mathlib

/-!
Shallow embedding of the ProtonDrive sync engine core:
the filter-rule compiler (`ConfigManager.get_sync_filters`), the subprocess
wrapper results (`RcloneManager.sync`, `RcloneManager.estimate_sync_size`,
`RcloneManager.cancel_sync`) and the sync orchestrator
(`SyncEngine._perform_sync`, `sync_now`, `cancel_sync`, `pause_sync`,
`resume_sync`). Stateful Python methods become explicit state-passing
functions; the outcomes of external subprocesses and the possibility of an
exception inside `_perform_sync`'s try block are supplied by an environment
record. Observer callbacks are modelled as emitted events.
-/

namespace ProtondriveSync

/-- Configuration fields consumed by the core, mirroring the keys of
`ConfigManager.DEFAULT_CONFIG` in src/protondrive_sync/config_manager.py.
The large-sync threshold is a rational since Python compares the float
`size_mb` against it. -/
structure SyncConfig where
  rclone_remote : String
  local_folder : String
  sync_mode : String
  included_folders : List String
  excluded_folders : List String
  sync_interval_minutes : Nat
  dry_run_first_sync : Bool
  confirm_large_sync : Bool
  large_sync_threshold_mb : Rat
  bandwidth_limit_kbps : Nat
  deriving DecidableEq

/-- `ConfigManager.get_sync_filters` (src/protondrive_sync/config_manager.py
lines 195-221): builds the rclone filter argument list by appending, for each
folder, the recursive pattern then the folder itself, and in include mode a
trailing catch-all exclude when the folder list is non-empty. The Python
for-loop with `filters.append` is rendered as a left fold. -/
def get_sync_filters (cfg : SyncConfig) : List String :=
  let filters : List String := []
  if cfg.sync_mode = "selective_include" then
    let filters := cfg.included_folders.foldl
      (fun acc folder => acc ++ ["--include=" ++ folder ++ "/**", "--include=" ++ folder])
      filters
    if cfg.included_folders ≠ [] then filters ++ ["--exclude=*"] else filters
  else if cfg.sync_mode = "selective_exclude" then
    cfg.excluded_folders.foldl
      (fun acc folder => acc ++ ["--exclude=" ++ folder ++ "/**", "--exclude=" ++ folder])
      filters
  else filters

/-- `ConfigManager.is_configured`: both the remote name and the local folder
must be non-empty (Python truthiness of the two strings). -/
def is_configured (cfg : SyncConfig) : Bool :=
  cfg.rclone_remote ≠ "" && cfg.local_folder ≠ ""

/-- The mutable fields of `SyncEngine` (src/src/sync_engine.py lines 34-42)
that make up the orchestrator state. `last_sync_time` is an abstract
timestamp. -/
structure EngineState where
  is_running : Bool
  sync_in_progress : Bool
  sync_paused : Bool
  first_sync_done : Bool
  last_sync_time : Option Nat
  deriving DecidableEq

/-- Outcome of one `rclone sync` subprocess as seen by `RcloneManager.sync`:
the process runs and exits with a code, the binary is missing
(FileNotFoundError), or some other exception is raised and caught. -/
inductive ProcOutcome where
  | exits (code : Int)
  | notFound
  | raises (msg : String)
  deriving DecidableEq

/-- Result contract of `RcloneManager.sync`
(src/protondrive_sync/rclone_manager.py lines 118-203): success iff the exit
code is 0, with the human-readable messages produced by the source. -/
def rclone_sync_result : ProcOutcome → Bool × String
  | ProcOutcome.exits code =>
      if code = 0 then (true, "Sync completed successfully")
      else (false, "Sync failed with return code " ++ toString code)
  | ProcOutcome.notFound => (false, "Rclone not found. Please install rclone.")
  | ProcOutcome.raises m => (false, "Error during sync: " ++ m)

/-- The byte and file counts parsed from the JSON output of `rclone size`. -/
structure SizeStats where
  bytes : Nat
  count : Nat
  deriving DecidableEq

/-- Outcome of one `rclone size --json` subprocess: it exits with a code and,
when the JSON on stdout parses, the parsed stats (`none` models
`json.loads` raising); or the invocation itself raises. -/
inductive SizeProcOutcome where
  | exits (code : Int) (parsed : Option SizeStats)
  | raises (msg : String)
  deriving DecidableEq

/-- The stats dictionary built by `RcloneManager.estimate_sync_size` on
success: byte count, file count, and the derived megabyte/gigabyte floats
(modelled as rationals). -/
structure SizeInfo where
  bytes : Nat
  count : Nat
  size_mb : Rat
  size_gb : Rat
  deriving DecidableEq

/-- `RcloneManager.estimate_sync_size` (src/protondrive_sync/rclone_manager.py
lines 342-389): on exit code 0 with parsable JSON returns `(True, stats)` with
`size_mb = bytes / (1024*1024)` and `size_gb = bytes / (1024*1024*1024)`;
on non-zero exit, unparsable output, or any exception returns `(False, {})`
(the empty dict is `none`). -/
def estimate_sync_size : SizeProcOutcome → Bool × Option SizeInfo
  | SizeProcOutcome.exits code parsed =>
      if code = 0 then
        match parsed with
        | some st =>
            (true, some { bytes := st.bytes, count := st.count,
                          size_mb := (st.bytes : Rat) / (1024 * 1024),
                          size_gb := (st.bytes : Rat) / (1024 * 1024 * 1024) })
        | none => (false, none)
      else (false, none)
  | SizeProcOutcome.raises _ => (false, none)

/-- Points of `_perform_sync` at which an exception may be raised by a
logging call or an observer callback (the rclone wrappers themselves catch
their own exceptions and return tuples). `onStartCallback` is the
`on_sync_start` observer invocation at src/src/sync_engine.py lines 136-137:
it runs after `sync_in_progress` is set but before the try block, so an
exception there propagates with no except/finally handling. The remaining
points lie inside the try block. -/
inductive ExnPoint where
  | onStartCallback
  | tryEntry
  | beforeEstimate
  | beforeRealSync
  | beforeComplete
  deriving DecidableEq

/-- Environment of one `_perform_sync` run: the outcomes of the (up to three)
subprocess invocations, the completion timestamp, and an optional exception
raised at one of the `ExnPoint`s. -/
structure SyncEnv where
  dryRunProc : ProcOutcome
  sizeProc : SizeProcOutcome
  realProc : ProcOutcome
  now : Nat
  exn : Option (ExnPoint × String)
  deriving DecidableEq

/-- Observable events of one sync attempt: the observer callbacks
(`on_sync_start`, `on_sync_warning`, `on_sync_complete`) and, so that
subprocess spawning is observable, one event per `rclone` invocation. -/
inductive Event where
  | syncStart
  | rcloneSyncCall (dry_run : Bool)
  | estimateCall
  | syncWarning (kind : String) (info : Option SizeInfo)
  | syncComplete (success : Bool) (msg : String)
  deriving DecidableEq

/-- Whether the environment raises an exception at point `p`. -/
def raiseAt (env : SyncEnv) (p : ExnPoint) : Option String :=
  match env.exn with
  | some pm => if pm.1 = p then some pm.2 else none
  | none => none

/-- The tail of `_perform_sync`'s try block from the real transfer on
(src/src/sync_engine.py lines 197-216): invoke `rclone.sync` without
`dry_run`; on success record the timestamp and mark the first sync done;
then report completion. -/
def do_real_sync (env : SyncEnv) (s : EngineState) (evs : List Event) :
    EngineState × List Event :=
  match raiseAt env ExnPoint.beforeRealSync with
  | some m => (s, evs ++ [Event.syncComplete false m])
  | none =>
    let r := rclone_sync_result env.realProc
    let evs2 := evs ++ [Event.rcloneSyncCall false]
    let s2 :=
      if r.1 then
        { s with last_sync_time := some env.now, first_sync_done := true }
      else s
    match raiseAt env ExnPoint.beforeComplete with
    | some m => (s2, evs2 ++ [Event.syncComplete false m])
    | none => (s2, evs2 ++ [Event.syncComplete r.1 r.2])

/-- The size-estimation section of `_perform_sync`'s first-sync safety check
(src/src/sync_engine.py lines 172-191): call `estimate_sync_size`; when it
succeeds, read `size_mb` (default 0), and if it exceeds the threshold while
large-sync confirmation is enabled, emit the `large_sync` warning; in every
case fall through to the real transfer. -/
def first_sync_size_check (cfg : SyncConfig) (env : SyncEnv) (s : EngineState)
    (evs : List Event) : EngineState × List Event :=
  match raiseAt env ExnPoint.beforeEstimate with
  | some m => (s, evs ++ [Event.syncComplete false m])
  | none =>
    let e := estimate_sync_size env.sizeProc
    let evs2 := evs ++ [Event.estimateCall]
    let warn :=
      if e.1 then
        let size_mb :=
          match e.2 with
          | some si => si.size_mb
          | none => 0
        if cfg.large_sync_threshold_mb < size_mb ∧ cfg.confirm_large_sync = true then
          [Event.syncWarning "large_sync" e.2]
        else []
      else []
    do_real_sync env s (evs2 ++ warn)

/-- The try/except body of `_perform_sync` (src/src/sync_engine.py lines
139-221), entered with `sync_in_progress` already set: on first sync (unless
forced) optionally dry-run (aborting on dry-run failure with the flag cleared
and a failure report), then size-check, then the real transfer; an exception
raised anywhere in the try block is caught and reported as
`on_sync_complete(False, str(e))`. -/
def try_except_body (cfg : SyncConfig) (env : SyncEnv) (force_sync : Bool)
    (s : EngineState) : EngineState × List Event :=
  match raiseAt env ExnPoint.tryEntry with
  | some m => (s, [Event.syncComplete false m])
  | none =>
    if s.first_sync_done = false ∧ force_sync = false then
      if cfg.dry_run_first_sync = true then
        let d := rclone_sync_result env.dryRunProc
        let evs := [Event.rcloneSyncCall true]
        if d.1 then
          first_sync_size_check cfg env s evs
        else
          ({ s with sync_in_progress := false },
           evs ++ [Event.syncComplete false ("Dry-run failed: " ++ d.2)])
      else
        first_sync_size_check cfg env s []
    else
      do_real_sync env s []

/-- `SyncEngine._perform_sync` (src/src/sync_engine.py lines 128-223): set
`sync_in_progress` (line 134), fire `on_sync_start` (lines 136-137), then run
the try/except body whose finally clause clears `sync_in_progress`. The
`on_sync_start` call precedes the try block, so when that callback raises,
the exception propagates uncaught, no further code of the method runs, and
`sync_in_progress` is left true. -/
def perform_sync (cfg : SyncConfig) (env : SyncEnv) (force_sync : Bool)
    (s : EngineState) : EngineState × List Event :=
  let s1 := { s with sync_in_progress := true }
  match raiseAt env ExnPoint.onStartCallback with
  | some _ => (s1, [Event.syncStart])
  | none =>
    let r := try_except_body cfg env force_sync s1
    ({ r.1 with sync_in_progress := false }, Event.syncStart :: r.2)

/-- `SyncEngine.sync_now` (src/src/sync_engine.py lines 100-126): reject when
a sync is already in progress or when unconfigured; otherwise perform the
sync, on a freshly spawned thread in the non-blocking case. The result is
(return value, engine state afterwards, emitted events, whether a worker
thread was spawned). -/
def sync_now (cfg : SyncConfig) (env : SyncEnv) (blocking : Bool)
    (s : EngineState) : Bool × EngineState × List Event × Bool :=
  if s.sync_in_progress then (false, s, [], false)
  else if ¬ is_configured cfg then (false, s, [], false)
  else if blocking then
    let r := perform_sync cfg env false s
    (true, r.1, r.2, false)
  else
    let r := perform_sync cfg env false s
    (true, r.1, r.2, true)

/-- State of the `RcloneManager.process` field when `cancel_sync` is called:
no process object, a process that already exited, a running process that
terminates within the 5-second grace period, one that must be force-killed
after the grace period, or one whose termination raises an exception. -/
inductive ProcState where
  | noProcess
  | alreadyExited
  | runningGraceful
  | runningStubborn
  | runningError (msg : String)
  deriving DecidableEq

/-- `RcloneManager.cancel_sync` (src/protondrive_sync/rclone_manager.py lines
205-224): returns True when a live process was terminated, either gracefully
within 5 seconds or by forced kill after the grace period timed out; returns
False when no live process exists or the termination raised an error. -/
def rclone_cancel_sync : ProcState → Bool
  | ProcState.noProcess => false
  | ProcState.alreadyExited => false
  | ProcState.runningGraceful => true
  | ProcState.runningStubborn => true
  | ProcState.runningError _ => false

/-- `SyncEngine.cancel_sync` (src/src/sync_engine.py lines 234-243): False
when no sync is in progress, otherwise whatever `RcloneManager.cancel_sync`
returns. -/
def cancel_sync (s : EngineState) (p : ProcState) : Bool :=
  if s.sync_in_progress = false then false
  else rclone_cancel_sync p

/-- `SyncEngine.pause_sync` (src/src/sync_engine.py lines 245-257): sets the
paused flag and returns True only when a sync is in progress and not already
paused. -/
def pause_sync (s : EngineState) : Bool × EngineState :=
  if s.sync_in_progress = true ∧ s.sync_paused = false then
    (true, { s with sync_paused := true })
  else (false, s)

/-- `SyncEngine.resume_sync` (src/src/sync_engine.py lines 259-269): clears
the paused flag and returns True whenever it was set, with no check of
`sync_in_progress`. -/
def resume_sync (s : EngineState) : Bool × EngineState :=
  if s.sync_paused = true then (true, { s with sync_paused := false })
  else (false, s)

/-- Recognises the observer-warning events among a sync attempt's events. -/
def isWarningEvent : Event → Bool
  | Event.syncWarning _ _ => true
  | _ => false

/-! ## Helper lemmas -/

/-- The append-accumulating left fold of the filter loops equals the
accumulator followed by the concatenation of the per-folder blocks. -/
theorem foldl_append_block (g : String → List String) :
    ∀ (l acc : List String),
      l.foldl (fun acc folder => acc ++ g folder) acc = acc ++ l.flatMap g := by
  intro l
  induction l with
  | nil => intro acc; simp
  | cons f rest ih =>
      intro acc
      simp [List.foldl_cons, ih, List.append_assoc]

/-- Concrete evaluation of the size estimator on a 2000 MB listing, used to
instantiate theorems at this input: the rational byte-to-MB and byte-to-GB
divisions are normalised by `norm_num`. -/
theorem estimate_sync_size_eval_2000mb :
    estimate_sync_size
      (SizeProcOutcome.exits 0 (some { bytes := 2097152000, count := 42 })) =
      (true, some { bytes := 2097152000, count := 42, size_mb := 2000,
                    size_gb := 125 / 64 }) := by
  simp only [estimate_sync_size, if_pos]
  norm_num [SizeInfo.mk.injEq]

/-! ## Theorems about the filter compiler -/

/-- C6: for every non-empty folder list in include mode, the compiled filter
list is, in folder-list order, the pair "include folder/**" then
"include folder" for each folder, followed by exactly one trailing catch-all
exclude rule as the last element. -/
theorem include_mode_filter_shape (cfg : SyncConfig)
    (hmode : cfg.sync_mode = "selective_include")
    (hne : cfg.included_folders ≠ []) :
    get_sync_filters cfg =
      (cfg.included_folders.flatMap
        (fun folder => ["--include=" ++ folder ++ "/**", "--include=" ++ folder]))
      ++ ["--exclude=*"] := by
  simp [get_sync_filters, hmode, hne, foldl_append_block]

/-- C6 witness: for folders Photos and Docs in include mode the compiled
rules are exactly the five arguments from the specification's example. -/
theorem include_mode_filter_shape_witness :
    (["Photos", "Docs"] : List String) ≠ [] ∧
    get_sync_filters
      { rclone_remote := "protondrive", local_folder := "/home/user/ProtonDrive",
        sync_mode := "selective_include", included_folders := ["Photos", "Docs"],
        excluded_folders := [], sync_interval_minutes := 30,
        dry_run_first_sync := true, confirm_large_sync := true,
        large_sync_threshold_mb := 1000, bandwidth_limit_kbps := 0 } =
      ["--include=Photos/**", "--include=Photos", "--include=Docs/**",
       "--include=Docs", "--exclude=*"] :=
  ⟨by decide,
   (include_mode_filter_shape
      { rclone_remote := "protondrive", local_folder := "/home/user/ProtonDrive",
        sync_mode := "selective_include", included_folders := ["Photos", "Docs"],
        excluded_folders := [], sync_interval_minutes := 30,
        dry_run_first_sync := true, confirm_large_sync := true,
        large_sync_threshold_mb := 1000, bandwidth_limit_kbps := 0 }
      rfl (by decide)).trans (by decide)⟩

/-- C7: with sync mode full the filter compiler returns the empty rule list,
and in include mode with an empty folder list the compiled result is also the
empty list (no catch-all exclude rule), equal to the full-mode result. -/
theorem full_mode_and_empty_include_filters (cfg cfgInc : SyncConfig)
    (hfull : cfg.sync_mode = "full")
    (hmode : cfgInc.sync_mode = "selective_include")
    (hempty : cfgInc.included_folders = []) :
    get_sync_filters cfg = [] ∧ get_sync_filters cfgInc = [] := by
  constructor
  · simp [get_sync_filters, hfull]
  · simp [get_sync_filters, hmode, hempty]

/-- C7 witness: a full-mode configuration and an include-mode configuration
with no folders both compile to the empty filter list. -/
theorem full_mode_and_empty_include_filters_witness :
    ("full" : String) = "full" ∧
    get_sync_filters
      { rclone_remote := "protondrive", local_folder := "/home/user/ProtonDrive",
        sync_mode := "full", included_folders := ["Photos"],
        excluded_folders := ["Trash"], sync_interval_minutes := 30,
        dry_run_first_sync := true, confirm_large_sync := true,
        large_sync_threshold_mb := 1000, bandwidth_limit_kbps := 0 } = [] ∧
    get_sync_filters
      { rclone_remote := "protondrive", local_folder := "/home/user/ProtonDrive",
        sync_mode := "selective_include", included_folders := [],
        excluded_folders := ["Trash"], sync_interval_minutes := 30,
        dry_run_first_sync := true, confirm_large_sync := true,
        large_sync_threshold_mb := 1000, bandwidth_limit_kbps := 0 } = [] :=
  ⟨rfl,
   full_mode_and_empty_include_filters
      { rclone_remote := "protondrive", local_folder := "/home/user/ProtonDrive",
        sync_mode := "full", included_folders := ["Photos"],
        excluded_folders := ["Trash"], sync_interval_minutes := 30,
        dry_run_first_sync := true, confirm_large_sync := true,
        large_sync_threshold_mb := 1000, bandwidth_limit_kbps := 0 }
      { rclone_remote := "protondrive", local_folder := "/home/user/ProtonDrive",
        sync_mode := "selective_include", included_folders := [],
        excluded_folders := ["Trash"], sync_interval_minutes := 30,
        dry_run_first_sync := true, confirm_large_sync := true,
        large_sync_threshold_mb := 1000, bandwidth_limit_kbps := 0 }
      rfl rfl rfl⟩

/-- C10: every sync-mode string other than the two selective modes, including
unrecognized or malformed ones, compiles to the empty rule list, i.e. is
treated as a full sync. -/
theorem unknown_mode_filters_empty (cfg : SyncConfig)
    (h1 : cfg.sync_mode ≠ "selective_include")
    (h2 : cfg.sync_mode ≠ "selective_exclude") :
    get_sync_filters cfg = [] := by
  simp [get_sync_filters, h1, h2]

/-- C10 witness: a malformed mode string compiles to the empty filter list
even with folder lists present. -/
theorem unknown_mode_filters_empty_witness :
    ("selectve_inclde" : String) ≠ "selective_include" ∧
    get_sync_filters
      { rclone_remote := "protondrive", local_folder := "/home/user/ProtonDrive",
        sync_mode := "selectve_inclde", included_folders := ["Photos"],
        excluded_folders := ["Trash"], sync_interval_minutes := 30,
        dry_run_first_sync := true, confirm_large_sync := true,
        large_sync_threshold_mb := 1000, bandwidth_limit_kbps := 0 } = [] :=
  ⟨by decide,
   unknown_mode_filters_empty
      { rclone_remote := "protondrive", local_folder := "/home/user/ProtonDrive",
        sync_mode := "selectve_inclde", included_folders := ["Photos"],
        excluded_folders := ["Trash"], sync_interval_minutes := 30,
        dry_run_first_sync := true, confirm_large_sync := true,
        large_sync_threshold_mb := 1000, bandwidth_limit_kbps := 0 }
      (by decide) (by decide)⟩

/-! ## Theorems about the sync orchestrator -/

/-- C4: evaluation of the code at the failing input of the stuck-flag bug.
The claim says `sync_in_progress` is false on every exit path of a sync
attempt, including exceptions raised mid-operation; but `on_sync_start` is
invoked after the flag is set and before the try block, so when that observer
callback raises, the finally clause never runs and the attempt finishes with
`sync_in_progress` still true. -/
theorem perform_sync_stuck_flag_on_start_callback_exception :
    ((perform_sync
      { rclone_remote := "protondrive", local_folder := "/home/user/ProtonDrive",
        sync_mode := "full", included_folders := [], excluded_folders := [],
        sync_interval_minutes := 30, dry_run_first_sync := true,
        confirm_large_sync := true, large_sync_threshold_mb := 1000,
        bandwidth_limit_kbps := 0 }
      { dryRunProc := ProcOutcome.exits 0,
        sizeProc := SizeProcOutcome.exits 0 (some { bytes := 0, count := 0 }),
        realProc := ProcOutcome.exits 0, now := 7,
        exn := some (ExnPoint.onStartCallback, "observer failed") }
      false
      { is_running := true, sync_in_progress := false, sync_paused := false,
        first_sync_done := false, last_sync_time := none }).1).sync_in_progress
      = true := rfl

/-- C2: whenever a sync is already in progress, `sync_now` (blocking or not)
returns false, spawns no thread and no subprocess, and leaves every field of
the engine state unchanged. -/
theorem sync_now_rejects_when_in_progress (cfg : SyncConfig) (env : SyncEnv)
    (blocking : Bool) (s : EngineState) (h : s.sync_in_progress = true) :
    sync_now cfg env blocking s = (false, s, [], false) := by
  simp [sync_now, h]

/-- C2 witness: a concrete busy engine state rejects both a blocking and the
underlying state shows no change. -/
theorem sync_now_rejects_when_in_progress_witness :
    ({ is_running := true, sync_in_progress := true, sync_paused := false,
       first_sync_done := false, last_sync_time := none } : EngineState).sync_in_progress
      = true ∧
    sync_now
      { rclone_remote := "protondrive", local_folder := "/home/user/ProtonDrive",
        sync_mode := "full", included_folders := [], excluded_folders := [],
        sync_interval_minutes := 30, dry_run_first_sync := true,
        confirm_large_sync := true, large_sync_threshold_mb := 1000,
        bandwidth_limit_kbps := 0 }
      { dryRunProc := ProcOutcome.exits 0,
        sizeProc := SizeProcOutcome.exits 0 (some { bytes := 0, count := 0 }),
        realProc := ProcOutcome.exits 0, now := 7, exn := none }
      true
      { is_running := true, sync_in_progress := true, sync_paused := false,
        first_sync_done := false, last_sync_time := none } =
      (false,
       { is_running := true, sync_in_progress := true, sync_paused := false,
         first_sync_done := false, last_sync_time := none },
       [], false) :=
  ⟨rfl,
   sync_now_rejects_when_in_progress
      { rclone_remote := "protondrive", local_folder := "/home/user/ProtonDrive",
        sync_mode := "full", included_folders := [], excluded_folders := [],
        sync_interval_minutes := 30, dry_run_first_sync := true,
        confirm_large_sync := true, large_sync_threshold_mb := 1000,
        bandwidth_limit_kbps := 0 }
      { dryRunProc := ProcOutcome.exits 0,
        sizeProc := SizeProcOutcome.exits 0 (some { bytes := 0, count := 0 }),
        realProc := ProcOutcome.exits 0, now := 7, exn := none }
      true
      { is_running := true, sync_in_progress := true, sync_paused := false,
        first_sync_done := false, last_sync_time := none }
      rfl⟩

/-- C3: on a first sync with the dry-run-first-sync flag enabled, a failing
dry-run makes the attempt report failure via `on_sync_complete` with the
dry-run message, perform no real (non-dry-run) transfer, and finish with
`sync_in_progress` false and the rest of the state untouched. -/
theorem dry_run_failure_aborts (cfg : SyncConfig) (env : SyncEnv)
    (s : EngineState)
    (hfirst : s.first_sync_done = false)
    (hexn : env.exn = none)
    (hflag : cfg.dry_run_first_sync = true)
    (hfail : (rclone_sync_result env.dryRunProc).1 = false) :
    perform_sync cfg env false s =
      ({ s with sync_in_progress := false },
       [Event.syncStart, Event.rcloneSyncCall true,
        Event.syncComplete false
          ("Dry-run failed: " ++ (rclone_sync_result env.dryRunProc).2)])
    ∧ Event.rcloneSyncCall false ∉ (perform_sync cfg env false s).2 := by
  have hmain : perform_sync cfg env false s =
      ({ s with sync_in_progress := false },
       [Event.syncStart, Event.rcloneSyncCall true,
        Event.syncComplete false
          ("Dry-run failed: " ++ (rclone_sync_result env.dryRunProc).2)]) := by
    simp [perform_sync, try_except_body, raiseAt, hexn, hfirst, hflag, hfail]
  refine ⟨hmain, ?_⟩
  rw [hmain]
  simp

/-- C3 witness: a concrete first-sync attempt whose dry-run exits with code 3
aborts with the dry-run failure message and without a real transfer. -/
theorem dry_run_failure_aborts_witness :
    (rclone_sync_result (ProcOutcome.exits 3)).1 = false ∧
    (perform_sync
      { rclone_remote := "protondrive", local_folder := "/home/user/ProtonDrive",
        sync_mode := "full", included_folders := [], excluded_folders := [],
        sync_interval_minutes := 30, dry_run_first_sync := true,
        confirm_large_sync := true, large_sync_threshold_mb := 1000,
        bandwidth_limit_kbps := 0 }
      { dryRunProc := ProcOutcome.exits 3,
        sizeProc := SizeProcOutcome.exits 0 (some { bytes := 0, count := 0 }),
        realProc := ProcOutcome.exits 0, now := 7, exn := none }
      false
      { is_running := true, sync_in_progress := false, sync_paused := false,
        first_sync_done := false, last_sync_time := none } =
      ({ is_running := true, sync_in_progress := false, sync_paused := false,
         first_sync_done := false, last_sync_time := none },
       [Event.syncStart, Event.rcloneSyncCall true,
        Event.syncComplete false
          ("Dry-run failed: " ++ (rclone_sync_result (ProcOutcome.exits 3)).2)]))
    ∧ Event.rcloneSyncCall false ∉
        (perform_sync
          { rclone_remote := "protondrive", local_folder := "/home/user/ProtonDrive",
            sync_mode := "full", included_folders := [], excluded_folders := [],
            sync_interval_minutes := 30, dry_run_first_sync := true,
            confirm_large_sync := true, large_sync_threshold_mb := 1000,
            bandwidth_limit_kbps := 0 }
          { dryRunProc := ProcOutcome.exits 3,
            sizeProc := SizeProcOutcome.exits 0 (some { bytes := 0, count := 0 }),
            realProc := ProcOutcome.exits 0, now := 7, exn := none }
          false
          { is_running := true, sync_in_progress := false, sync_paused := false,
            first_sync_done := false, last_sync_time := none }).2 :=
  ⟨by decide,
   dry_run_failure_aborts
      { rclone_remote := "protondrive", local_folder := "/home/user/ProtonDrive",
        sync_mode := "full", included_folders := [], excluded_folders := [],
        sync_interval_minutes := 30, dry_run_first_sync := true,
        confirm_large_sync := true, large_sync_threshold_mb := 1000,
        bandwidth_limit_kbps := 0 }
      { dryRunProc := ProcOutcome.exits 3,
        sizeProc := SizeProcOutcome.exits 0 (some { bytes := 0, count := 0 }),
        realProc := ProcOutcome.exits 0, now := 7, exn := none }
      { is_running := true, sync_in_progress := false, sync_paused := false,
        first_sync_done := false, last_sync_time := none }
      rfl rfl rfl (by decide)⟩

/-- C1: on a first sync whose size estimate succeeds with a megabyte count
above the threshold while large-sync confirmation is enabled, the attempt
emits exactly one `large_sync` warning event carrying the byte/MB/GB counts
and file count, and then still performs the real (non-dry-run) transfer, with
no confirmation step between the warning and the transfer. -/
theorem first_sync_large_warning_then_real (cfg : SyncConfig) (env : SyncEnv)
    (s : EngineState) (si : SizeInfo)
    (hfirst : s.first_sync_done = false)
    (hexn : env.exn = none)
    (hdry : cfg.dry_run_first_sync = true →
      (rclone_sync_result env.dryRunProc).1 = true)
    (hest : estimate_sync_size env.sizeProc = (true, some si))
    (hbig : cfg.large_sync_threshold_mb < si.size_mb)
    (hconf : cfg.confirm_large_sync = true) :
    (perform_sync cfg env false s).2 =
      Event.syncStart ::
        ((if cfg.dry_run_first_sync = true then [Event.rcloneSyncCall true] else [])
          ++ [Event.estimateCall,
              Event.syncWarning "large_sync" (some si),
              Event.rcloneSyncCall false,
              Event.syncComplete (rclone_sync_result env.realProc).1
                (rclone_sync_result env.realProc).2]) := by
  cases hflag : cfg.dry_run_first_sync with
  | true =>
      have hd := hdry hflag
      simp [perform_sync, try_except_body, first_sync_size_check, do_real_sync,
            raiseAt, hexn, hfirst, hflag, hd, hest, hbig, hconf]
  | false =>
      simp [perform_sync, try_except_body, first_sync_size_check, do_real_sync,
            raiseAt, hexn, hfirst, hflag, hest, hbig, hconf]

/-- C1 witness: a 2000 MB estimate against a 1000 MB threshold on a first
sync emits the single large-sync warning and then the real transfer. -/
theorem first_sync_large_warning_then_real_witness :
    ((1000 : Rat) <
      ({ bytes := 2097152000, count := 42, size_mb := 2000,
         size_gb := 125 / 64 } : SizeInfo).size_mb) ∧
    (perform_sync
      { rclone_remote := "protondrive", local_folder := "/home/user/ProtonDrive",
        sync_mode := "full", included_folders := [], excluded_folders := [],
        sync_interval_minutes := 30, dry_run_first_sync := true,
        confirm_large_sync := true, large_sync_threshold_mb := 1000,
        bandwidth_limit_kbps := 0 }
      { dryRunProc := ProcOutcome.exits 0,
        sizeProc := SizeProcOutcome.exits 0 (some { bytes := 2097152000, count := 42 }),
        realProc := ProcOutcome.exits 0, now := 7, exn := none }
      false
      { is_running := true, sync_in_progress := false, sync_paused := false,
        first_sync_done := false, last_sync_time := none }).2 =
      Event.syncStart ::
        ((if ({ rclone_remote := "protondrive", local_folder := "/home/user/ProtonDrive",
                sync_mode := "full", included_folders := [], excluded_folders := [],
                sync_interval_minutes := 30, dry_run_first_sync := true,
                confirm_large_sync := true, large_sync_threshold_mb := 1000,
                bandwidth_limit_kbps := 0 } : SyncConfig).dry_run_first_sync = true
          then [Event.rcloneSyncCall true] else [])
          ++ [Event.estimateCall,
              Event.syncWarning "large_sync"
                (some { bytes := 2097152000, count := 42, size_mb := 2000,
                        size_gb := 125 / 64 }),
              Event.rcloneSyncCall false,
              Event.syncComplete (rclone_sync_result (ProcOutcome.exits 0)).1
                (rclone_sync_result (ProcOutcome.exits 0)).2]) :=
  ⟨by decide,
   first_sync_large_warning_then_real
      { rclone_remote := "protondrive", local_folder := "/home/user/ProtonDrive",
        sync_mode := "full", included_folders := [], excluded_folders := [],
        sync_interval_minutes := 30, dry_run_first_sync := true,
        confirm_large_sync := true, large_sync_threshold_mb := 1000,
        bandwidth_limit_kbps := 0 }
      { dryRunProc := ProcOutcome.exits 0,
        sizeProc := SizeProcOutcome.exits 0 (some { bytes := 2097152000, count := 42 }),
        realProc := ProcOutcome.exits 0, now := 7, exn := none }
      { is_running := true, sync_in_progress := false, sync_paused := false,
        first_sync_done := false, last_sync_time := none }
      { bytes := 2097152000, count := 42, size_mb := 2000, size_gb := 125 / 64 }
      rfl rfl (fun _ => rfl) estimate_sync_size_eval_2000mb (by decide) rfl⟩

/-- C8: on a first sync whose size estimation fails, the failure is
non-fatal: the attempt emits no warning event and still performs the real
(non-dry-run) transfer. -/
theorem estimation_failure_nonfatal (cfg : SyncConfig) (env : SyncEnv)
    (s : EngineState)
    (hfirst : s.first_sync_done = false)
    (hexn : env.exn = none)
    (hdry : cfg.dry_run_first_sync = true →
      (rclone_sync_result env.dryRunProc).1 = true)
    (hest : (estimate_sync_size env.sizeProc).1 = false) :
    ((perform_sync cfg env false s).2).filter isWarningEvent = []
    ∧ Event.rcloneSyncCall false ∈ (perform_sync cfg env false s).2 := by
  cases hflag : cfg.dry_run_first_sync with
  | true =>
      have hd := hdry hflag
      constructor <;>
        simp [perform_sync, try_except_body, first_sync_size_check, do_real_sync,
              raiseAt, hexn, hfirst, hflag, hd, hest, isWarningEvent]
  | false =>
      constructor <;>
        simp [perform_sync, try_except_body, first_sync_size_check, do_real_sync,
              raiseAt, hexn, hfirst, hflag, hest, isWarningEvent]

/-- C8 witness: a size query exiting non-zero on a first sync emits no
warning and the real transfer still runs. -/
theorem estimation_failure_nonfatal_witness :
    (estimate_sync_size (SizeProcOutcome.exits 1 none)).1 = false ∧
    ((perform_sync
      { rclone_remote := "protondrive", local_folder := "/home/user/ProtonDrive",
        sync_mode := "full", included_folders := [], excluded_folders := [],
        sync_interval_minutes := 30, dry_run_first_sync := true,
        confirm_large_sync := true, large_sync_threshold_mb := 1000,
        bandwidth_limit_kbps := 0 }
      { dryRunProc := ProcOutcome.exits 0,
        sizeProc := SizeProcOutcome.exits 1 none,
        realProc := ProcOutcome.exits 0, now := 7, exn := none }
      false
      { is_running := true, sync_in_progress := false, sync_paused := false,
        first_sync_done := false, last_sync_time := none }).2).filter isWarningEvent
      = []
    ∧ Event.rcloneSyncCall false ∈
        (perform_sync
          { rclone_remote := "protondrive", local_folder := "/home/user/ProtonDrive",
            sync_mode := "full", included_folders := [], excluded_folders := [],
            sync_interval_minutes := 30, dry_run_first_sync := true,
            confirm_large_sync := true, large_sync_threshold_mb := 1000,
            bandwidth_limit_kbps := 0 }
          { dryRunProc := ProcOutcome.exits 0,
            sizeProc := SizeProcOutcome.exits 1 none,
            realProc := ProcOutcome.exits 0, now := 7, exn := none }
          false
          { is_running := true, sync_in_progress := false, sync_paused := false,
            first_sync_done := false, last_sync_time := none }).2 :=
  ⟨by decide,
   estimation_failure_nonfatal
      { rclone_remote := "protondrive", local_folder := "/home/user/ProtonDrive",
        sync_mode := "full", included_folders := [], excluded_folders := [],
        sync_interval_minutes := 30, dry_run_first_sync := true,
        confirm_large_sync := true, large_sync_threshold_mb := 1000,
        bandwidth_limit_kbps := 0 }
      { dryRunProc := ProcOutcome.exits 0,
        sizeProc := SizeProcOutcome.exits 1 none,
        realProc := ProcOutcome.exits 0, now := 7, exn := none }
      { is_running := true, sync_in_progress := false, sync_paused := false,
        first_sync_done := false, last_sync_time := none }
      rfl rfl (fun _ => rfl) (by decide)⟩

/-- No branch of the real-transfer tail touches the paused flag. -/
theorem do_real_sync_preserves_paused (env : SyncEnv) (s : EngineState)
    (evs : List Event) :
    ((do_real_sync env s evs).1).sync_paused = s.sync_paused := by
  unfold do_real_sync
  split
  · rfl
  · dsimp only
    split
    · split <;> rfl
    · split <;> rfl

/-- No branch of the size-check section touches the paused flag. -/
theorem first_sync_size_check_preserves_paused (cfg : SyncConfig)
    (env : SyncEnv) (s : EngineState) (evs : List Event) :
    ((first_sync_size_check cfg env s evs).1).sync_paused = s.sync_paused := by
  unfold first_sync_size_check
  split
  · rfl
  · exact do_real_sync_preserves_paused env s _

/-- No branch of the try/except body touches the paused flag. -/
theorem try_except_body_preserves_paused (cfg : SyncConfig) (env : SyncEnv)
    (force_sync : Bool) (s : EngineState) :
    ((try_except_body cfg env force_sync s).1).sync_paused = s.sync_paused := by
  unfold try_except_body
  split
  · rfl
  · split
    · split
      · dsimp only
        split
        · exact first_sync_size_check_preserves_paused cfg env s _
        · rfl
      · exact first_sync_size_check_preserves_paused cfg env s _
    · exact do_real_sync_preserves_paused env s _

/-- C9: a sync attempt never changes the paused flag, whatever its outcome —
so a flag set during a transfer is still set after it ends; `resume_sync`
returns true exactly when the paused flag is set, even with no transfer in
progress; and `pause_sync` returns true exactly when a transfer is in
progress and not already paused. -/
theorem pause_flag_discipline (cfg : SyncConfig) (env : SyncEnv)
    (force_sync : Bool) (s t : EngineState) :
    ((perform_sync cfg env force_sync s).1).sync_paused = s.sync_paused
    ∧ ((resume_sync t).1 = true ↔ t.sync_paused = true)
    ∧ ((pause_sync t).1 = true ↔
        (t.sync_in_progress = true ∧ t.sync_paused = false)) := by
  refine ⟨?_, ?_, ?_⟩
  · unfold perform_sync
    split
    · rfl
    · exact try_except_body_preserves_paused cfg env force_sync
        { s with sync_in_progress := true }
  · unfold resume_sync
    split <;> simp_all
  · unfold pause_sync
    split <;> simp_all

/-- C5 counterexample: an engine whose `sync_in_progress` flag is true while
the rclone manager holds no live process object (as between the dry-run and
the real transfer, or before the subprocess is spawned): `cancel_sync`
returns false although a transfer is in progress, refuting the claim that it
returns true whenever a transfer is in progress. -/
theorem cancel_sync_inprogress_counterexample :
    ({ is_running := true, sync_in_progress := true, sync_paused := false,
       first_sync_done := false, last_sync_time := none } : EngineState).sync_in_progress
      = true
    ∧ cancel_sync
        { is_running := true, sync_in_progress := true, sync_paused := false,
          first_sync_done := false, last_sync_time := none }
        ProcState.noProcess = false := by
  constructor <;> rfl

/-- C5 amended: `cancel_sync` returns false whenever no transfer is in
progress; when a transfer is in progress it returns the process-level cancel
result, which is true exactly when a live process was terminated — gracefully
within the 5-second grace period or by forced kill after it — and false when
no live process exists or termination raised an error. -/
theorem cancel_sync_characterisation (s : EngineState) (p : ProcState) :
    cancel_sync s p = (s.sync_in_progress && rclone_cancel_sync p)
    ∧ (rclone_cancel_sync p = true ↔
        (p = ProcState.runningGraceful ∨ p = ProcState.runningStubborn)) := by
  constructor
  · unfold cancel_sync
    cases hs : s.sync_in_progress <;> simp
  · cases p <;> simp [rclone_cancel_sync]

end ProtondriveSync
